import Mathlib

/-!
Verification of the chain-sync orchestrator of the gouroboros starter kit
(`cmd/chain-sync/main.go`), against its natural-language specification.

The Go program is shallowly embedded: the era-intersection table, the
start-point resolution performed by `main`, the mode decision and the
bulk handoff of `main`, and the chain-sync / block-fetch callback
handlers are translated into executable Lean definitions.  External
collaborators (the gouroboros library connection) are represented by
oracle structures supplying the results of their calls, and observable
effects (dialling, protocol requests, deliveries to the consumer) are
collected into explicit traces.
-/

namespace ChainSync

/-- A chain point: slot number plus block hash bytes.  `pcommon.Point` of
the gouroboros library; `NewPointOrigin` yields slot 0 with an empty hash. -/
structure Point where
  slot : Nat
  hash : List Nat
deriving DecidableEq, Repr

/-- `pcommon.NewPointOrigin()`: the origin sentinel, empty hash. -/
def Point.origin : Point := ⟨0, []⟩

/-- One entry of the `eraIntersect` table: either the empty `[]any` slice
(start at chain origin) or a slot plus a hex-encoded hash string, exactly
as the Go source stores them. -/
inductive IntersectEntry
  | empty
  | anchor (slot : Nat) (hashHex : String)
deriving DecidableEq, Repr

/-- Association-list lookup, embedding Go map indexing with an `ok` flag. -/
def assocLookup {α : Type} : List (String × α) → String → Option α
  | [], _ => none
  | (k, v) :: rest, key => if k = key then some v else assocLookup rest key

/-- The `eraIntersect` map of `cmd/chain-sync/main.go`: intersect points
(last block of the previous era) for each era on testnet/mainnet. -/
def eraIntersect : List (String × List (String × IntersectEntry)) :=
  [ ("unknown", [("genesis", .empty)]),
    ("mainnet",
      [ ("genesis", .empty),
        ("byron", .empty),
        ("shelley",
          .anchor 4492799
            "f8084c61b6a238acec985b59310b6ecec49c0ab8352249afd7268da5cff2a457"),
        ("allegra",
          .anchor 16588737
            "4e9bbbb67e3ae262133d94c3da5bffce7b1127fc436e7433b87668dba34c354a"),
        ("mary",
          .anchor 23068793
            "69c44ac1dda2ec74646e4223bc804d9126f719b1c245dadc2ad65e8de1b276d7"),
        ("alonzo",
          .anchor 39916796
            "e72579ff89dc9ed325b723a33624b596c08141c7bd573ecfff56a1f7229e4d09"),
        ("babbage",
          .anchor 72316796
            "c58a24ba8203e7629422a24d9dc68ce2ed495420bf40d9dab124373655161a20"),
        ("conway",
          .anchor 133660799
            "e757d57eb8dc9500a61c60a39fadb63d9be6973ba96ae337fd24453d4d15c343") ]),
    ("preprod", [("genesis", .empty), ("alonzo", .empty)]),
    ("preview",
      [ ("genesis", .empty),
        ("alonzo", .empty),
        ("babbage",
          .anchor 345594
            "e47ac07272e95d6c3dc8279def7b88ded00e310f99ac3dfbae48ed9ff55e6001") ]) ]

/-- The two distinct fatal exits of the era-intersection block of `main`
(lines 240-256): the unknown-network message and the unknown-era message. -/
inductive EraError
  | unsupportedNetworkForEra
  | unknownEra
deriving DecidableEq, Repr

/-- The era-intersection determination of `main` (lines 240-256): if the
network is not a key of `eraIntersect`, only era `genesis` is accepted and
the entry of the synthetic `unknown` network is used; otherwise the era
must be a key of the network's inner map. -/
def resolveIntersect (network era : String) : Except EraError IntersectEntry :=
  match assocLookup eraIntersect network with
  | none =>
      if era ≠ "genesis" then .error .unsupportedNetworkForEra
      else
        .ok (((assocLookup eraIntersect "unknown").bind
          (fun eras => assocLookup eras "genesis")).getD .empty)
  | some eras =>
      match assocLookup eras era with
      | none => .error .unknownEra
      | some e => .ok e

/-- Value of one hexadecimal digit, `none` on a non-hex character. -/
def hexDigit (c : Char) : Option Nat :=
  if ('0' ≤ c ∧ c ≤ '9') then some (c.toNat - '0'.toNat)
  else if ('a' ≤ c ∧ c ≤ 'f') then some (c.toNat - 'a'.toNat + 10)
  else if ('A' ≤ c ∧ c ≤ 'F') then some (c.toNat - 'A'.toNat + 10)
  else none

/-- Decode a hex character list two digits at a time.  On valid even-length
hex input this is `hex.DecodeString`; the Go call site discards the error
value, keeping the successfully decoded prefix. -/
def hexDecodeList : List Char → List Nat
  | c1 :: c2 :: rest =>
      match hexDigit c1, hexDigit c2 with
      | some hi, some lo => (16 * hi + lo) :: hexDecodeList rest
      | _, _ => []
  | _ => []

/-- `hex.DecodeString` as used at line 303 of `main` (error discarded). -/
def hexDecode (s : String) : List Nat := hexDecodeList s.data

/-- Lines 299-307 of `main`: a non-empty intersect entry becomes the point
with its slot and decoded hash, the empty entry becomes the origin point. -/
def pointFromEntry : IntersectEntry → Point
  | .empty => Point.origin
  | .anchor s h => ⟨s, hexDecode h⟩

/-- The `Config` struct of `cmd/chain-sync/main.go` after flag parsing. -/
structure GoConfig where
  socketPath : String
  address : String
  network : String
  magic : Nat
  startEra : String
  tip : Bool
  bulk : Bool
  blockRange : Bool

/-- Oracle for the external gouroboros connection: the results that the
library calls made by `main` would return. -/
structure World where
  networkByName : String → Option Nat
  newConnOk : Bool
  dialOk : Bool
  currentTip : Except String Point
  availableRange : Except String (Point × Point)
  syncOk : Bool
  stopOk : Bool
  fetchRangeOk : Bool

/-- Observable calls `main` makes on the connection, in order. -/
inductive Action
  | dial (networkType address : String)
  | getCurrentTip
  | getAvailableBlockRange (p : Point)
  | syncStart (p : Point)
  | syncStop
  | fetchRange (start stop : Point)
deriving DecidableEq, Repr

/-- The distinct `os.Exit(1)` sites of `main`, one per error message. -/
inductive ExitKind
  | invalidNetwork
  | unsupportedNetworkForEra
  | unknownEra
  | newConnectionFailed
  | connectionFailed
  | tipQueryFailed
  | rangeQueryFailed
  | syncStartFailed
  | syncStopFailed
  | rangeFetchFailed
deriving DecidableEq, Repr

/-- How a run of `main` ends: a fatal exit, the one-shot range display
followed by `return`, or blocking forever in `select {}`. -/
inductive Outcome
  | exited (k : ExitKind)
  | rangeShown (start stop : Point)
  | waiting
deriving DecidableEq, Repr

/-- Lines 309-343 of `main`: the mode handling.  `BlockRange` performs the
one-shot range query; otherwise NtC or non-bulk runs the standard
chain-sync; otherwise the bulk handoff queries the range, stops chain-sync,
then requests the block range. -/
def runModes (isNtN bulk blockRange : Bool) (point : Point) (w : World)
    (acts : List Action) : List Action × Outcome :=
  if blockRange then
    let a := acts ++ [Action.getAvailableBlockRange point]
    match w.availableRange with
    | .error _ => (a, .exited .rangeQueryFailed)
    | .ok (s, e) => (a, .rangeShown s e)
  else if ¬isNtN ∨ ¬bulk then
    let a := acts ++ [Action.syncStart point]
    if w.syncOk then (a, .waiting) else (a, .exited .syncStartFailed)
  else
    let a := acts ++ [Action.getAvailableBlockRange point]
    match w.availableRange with
    | .error _ => (a, .exited .rangeQueryFailed)
    | .ok (s, e) =>
      let a2 := a ++ [Action.syncStop]
      if ¬w.stopOk then (a2, .exited .syncStopFailed)
      else
        let a3 := a2 ++ [Action.fetchRange s e]
        if w.fetchRangeOk then (a3, .waiting) else (a3, .exited .rangeFetchFailed)

/-- The `main` function of `cmd/chain-sync/main.go` as a trace-producing
function of the configuration and the connection oracle: transport choice,
network-magic defaulting, era-intersection validation, connection setup and
`Dial`, start-point determination, then mode handling. -/
def runMain (cfg : GoConfig) (w : World) : List Action × Outcome :=
  let isNtN := cfg.address ≠ ""
  let networkType := if isNtN then "tcp" else "unix"
  let address := if isNtN then cfg.address else cfg.socketPath
  let network := if cfg.magic = 0 ∧ cfg.network = "" then "preview" else cfg.network
  if cfg.magic = 0 ∧ (w.networkByName network).isNone then
    ([], .exited .invalidNetwork)
  else
    match resolveIntersect network cfg.startEra with
    | .error .unsupportedNetworkForEra => ([], .exited .unsupportedNetworkForEra)
    | .error .unknownEra => ([], .exited .unknownEra)
    | .ok entry =>
      if ¬w.newConnOk then ([], .exited .newConnectionFailed)
      else
        let a0 := [Action.dial networkType address]
        if ¬w.dialOk then (a0, .exited .connectionFailed)
        else if cfg.tip then
          let a1 := a0 ++ [Action.getCurrentTip]
          match w.currentTip with
          | .error _ => (a1, .exited .tipQueryFailed)
          | .ok tp => runModes isNtN cfg.bulk cfg.blockRange tp w a1
        else
          runModes isNtN cfg.bulk cfg.blockRange (pointFromEntry entry) w a0

/-- The dynamic shape of a decoded ledger block: the Byron epoch-boundary
type, the Byron main type, or any later-era block type.  A Go type
assertion to a Byron pointer type succeeds exactly when the shape matches. -/
inductive BlockShape
  | ebb
  | main
  | modern
deriving DecidableEq, Repr

/-- A decoded ledger block, reduced to the accessor surface the handlers
read: `Era().Name`, the consensus-data epoch, `SlotNumber()`,
`BlockNumber()`, `Hash()`. -/
structure Block where
  shape : BlockShape
  eraName : String
  epoch : Nat
  slot : Nat
  blockNo : Nat
  hash : String
deriving DecidableEq, Repr

/-- The dynamic type of the `blockData any` argument of the roll-forward
handler: a full `lcommon.Block`, an `lcommon.BlockHeader` (carrying its
slot and hash bytes), or any other value (both switch cases miss and the
local `block` variable stays nil). -/
inductive BlockDataArg
  | block (b : Block)
  | header (slot : Nat) (hash : List Nat)
  | otherVal
deriving DecidableEq, Repr

/-- `ledger.BlockTypeByronEbb` of the gouroboros library. -/
def BlockTypeByronEbb : Nat := 0

/-- `ledger.BlockTypeByronMain` of the gouroboros library. -/
def BlockTypeByronMain : Nat := 1

/-- `ledger.BlockTypeBabbage` of the gouroboros library, one of the
later-era tags that fall to the default display branch. -/
def BlockTypeBabbage : Nat := 6

/-- One displayed block-info line, field for field the corresponding
`fmt.Printf` of the handlers: the `Byron (EBB)` line, the `Byron` line, or
the generic era line. -/
inductive Displayed
  | ebb (epoch slot blockNo : Nat) (hash : String)
  | byron (epoch slot blockNo : Nat) (hash : String)
  | generic (eraName : String) (slot blockNo : Nat) (hash : String)
deriving DecidableEq, Repr

/-- Observable effects of the callback handlers: a block-fetch request to
the connection, a block-info delivery to the consumer, or a roll-backward
delivery to the consumer. -/
inductive ConsumerEvent
  | fetchBlock (p : Point)
  | onBlock (d : Displayed)
  | onRollback (p : Point) (tipPoint : Point) (tipBlockNo : Nat)
deriving DecidableEq, Repr

/-- How one handler invocation ends: normal return, an error return
(fatal: the library tears the session down), or a Go panic from a failed
type assertion. -/
inductive HandlerResult
  | ok
  | err (msg : String)
  | panicked
deriving DecidableEq, Repr

/-- Oracle for `oConn.BlockFetch().Client.GetBlock`. -/
structure FetchOracle where
  getBlock : Point → Except String Block

/-- Lines 131-146 of `chainSyncRollForwardHandler`: the type switch on
`blockData`.  A full block passes through; a bare header requires the
shared connection (`oConn`) — nil aborts with an error — and triggers a
`GetBlock` body fetch for the header's slot and hash; any other value
leaves the local `block` variable nil. -/
def fetchStage (conn : Option FetchOracle) :
    BlockDataArg → List ConsumerEvent × Except String (Option Block)
  | .block b => ([], .ok (some b))
  | .header s h =>
      match conn with
      | none => ([], .error "empty ouroboros connection, aborting")
      | some o =>
          let p : Point := ⟨s, h⟩
          match o.getBlock p with
          | .error e => ([.fetchBlock p], .error e)
          | .ok b => ([.fetchBlock p], .ok (some b))
  | .otherVal => ([], .ok none)

/-- Lines 147-178 of `chainSyncRollForwardHandler`: the display switch on
`blockType`.  The two Byron cases perform Go type assertions (a mismatch
or nil block panics); the default branch errors on a nil block and
otherwise displays through the uniform accessor surface. -/
def displayBlock (blockType : Nat) (block : Option Block) :
    List ConsumerEvent × HandlerResult :=
  if blockType = BlockTypeByronEbb then
    match block with
    | some b =>
        if b.shape = .ebb then
          ([.onBlock (.ebb b.epoch b.slot b.blockNo b.hash)], .ok)
        else ([], .panicked)
    | none => ([], .panicked)
  else if blockType = BlockTypeByronMain then
    match block with
    | some b =>
        if b.shape = .main then
          ([.onBlock (.byron b.epoch b.slot b.blockNo b.hash)], .ok)
        else ([], .panicked)
    | none => ([], .panicked)
  else
    match block with
    | none => ([], .err "block is nil")
    | some b =>
        ([.onBlock (.generic b.eraName b.slot b.blockNo b.hash)], .ok)

/-- `chainSyncRollForwardHandler` (lines 125-180): the fetch stage followed
by the display switch; a fetch-stage error returns immediately. -/
def rollForwardHandler (conn : Option FetchOracle) (blockType : Nat)
    (blockData : BlockDataArg) : List ConsumerEvent × HandlerResult :=
  match fetchStage conn blockData with
  | (tr, .error e) => (tr, .err e)
  | (tr, .ok block) =>
      let d := displayBlock blockType block
      (tr ++ d.1, d.2)

/-- `blockFetchBlockHandler` (lines 182-196): a type switch on the dynamic
type of the delivered block; every non-nil block matches one of the three
cases (the `lcommon.Block` case catches all later eras) and is displayed;
the handler always returns nil. -/
def blockFetchBlockHandler (blockData : Option Block) :
    List ConsumerEvent × HandlerResult :=
  match blockData with
  | none => ([], .ok)
  | some b =>
      if b.shape = .ebb then
        ([.onBlock (.ebb b.epoch b.slot b.blockNo b.hash)], .ok)
      else if b.shape = .main then
        ([.onBlock (.byron b.epoch b.slot b.blockNo b.hash)], .ok)
      else
        ([.onBlock (.generic b.eraName b.slot b.blockNo b.hash)], .ok)

/-- `chainSyncRollBackwardHandler` (lines 116-123): prints the rollback
point and the peer tip to the consumer and returns nil. -/
def rollBackwardHandler (p : Point) (tipPoint : Point) (tipBlockNo : Nat) :
    List ConsumerEvent × HandlerResult :=
  ([.onRollback p tipPoint tipBlockNo], .ok)

/-- One event of a chain-sync subscription, as handed to the registered
handlers by the library. -/
inductive SyncEvent
  | rollBackward (p : Point) (tipPoint : Point) (tipBlockNo : Nat)
  | rollForward (blockType : Nat) (blockData : BlockDataArg)
deriving Repr

/-- Dispatch one subscription event to the handler registered for it in
`buildChainSyncConfig`. -/
def processEvent (conn : Option FetchOracle) :
    SyncEvent → List ConsumerEvent × HandlerResult
  | .rollBackward p tp tn => rollBackwardHandler p tp tn
  | .rollForward bt bd => rollForwardHandler conn bt bd

/-- Modelled from the spec: the event-delivery loop of the external
gouroboros library is not part of this repository; per the specification,
callbacks of one subscription are delivered strictly in chain order, one
at a time, never concurrently, and a handler error is fatal to the
session.  This sequential fold over the event list captures exactly that
contract, invoking the repository's registered handlers. -/
def processEvents (conn : Option FetchOracle) :
    List SyncEvent → List ConsumerEvent × HandlerResult
  | [] => ([], .ok)
  | e :: rest =>
      let (tr, r) := processEvent conn e
      match r with
      | .ok =>
          let (tr2, r2) := processEvents conn rest
          (tr ++ tr2, r2)
      | r => (tr, r)

/-- The block-number field of a displayed block-info line: every branch of
the display switch prints a `block_no` value (each format string carries a
`block_no = %d` field). -/
def Displayed.blockNoField : Displayed → Nat
  | .ebb _ _ n _ => n
  | .byron _ _ n _ => n
  | .generic _ _ n _ => n

/-- An intersect-table entry is hash-well-formed when its anchor hash, if
it has one, decodes to exactly 32 bytes. -/
def entryHashOk : IntersectEntry → Bool
  | .empty => true
  | .anchor _ h => (hexDecode h).length == 32

/-- A connection oracle in which every external call succeeds. -/
def wAllOk : World :=
  ⟨fun _ => some 2, true, true, .ok ⟨100, [1]⟩, .ok (⟨10, [2]⟩, ⟨99, [3]⟩),
   true, true, true⟩

/-- A connection oracle in which `ChainSync().Client.Stop()` fails and
everything else succeeds. -/
def wStopFail : World :=
  ⟨fun _ => some 2, true, true, .ok ⟨100, [1]⟩, .ok (⟨10, [2]⟩, ⟨99, [3]⟩),
   true, false, true⟩

/-- A connection oracle in which `BlockFetch().Client.GetBlockRange` fails
and everything else succeeds. -/
def wFetchFail : World :=
  ⟨fun _ => some 2, true, true, .ok ⟨100, [1]⟩, .ok (⟨10, [2]⟩, ⟨99, [3]⟩),
   true, true, false⟩

/-- Bulk mode requested over the local (unix-socket) transport. -/
def cfgBulkLocal : GoConfig :=
  ⟨"/ipc/node.socket", "", "preview", 2, "genesis", false, true, false⟩

/-- Range-only query requested together with bulk mode, over TCP. -/
def cfgRangeBulk : GoConfig :=
  ⟨"/ipc/node.socket", "relay:3001", "preview", 2, "genesis", false, true, true⟩

/-- Bulk mode over the node-to-node (TCP) transport. -/
def cfgBulkNtN : GoConfig :=
  ⟨"/ipc/node.socket", "relay:3001", "preview", 2, "genesis", false, true, false⟩

/-- Tip flag set together with an era name absent from the anchor table. -/
def cfgTipBadEra : GoConfig :=
  ⟨"/ipc/node.socket", "", "preview", 2, "vasil", true, false, false⟩

/-- Tip flag set together with a registered era name. -/
def cfgTipValidEra : GoConfig :=
  ⟨"/ipc/node.socket", "", "preview", 2, "babbage", true, false, false⟩

theorem displayBlock_ok_delivers (bt : Nat) (block : Option Block)
    (h : (displayBlock bt block).2 = HandlerResult.ok) :
    ∃ d, (displayBlock bt block).1 = [ConsumerEvent.onBlock d] := by
  cases block with
  | none =>
      simp only [displayBlock] at h
      split_ifs at h
  | some b =>
      simp only [displayBlock] at h ⊢
      split_ifs at h ⊢ <;> exact ⟨_, rfl⟩

theorem displayBlock_no_fetch (bt : Nat) (block : Option Block) (q : Point) :
    ConsumerEvent.fetchBlock q ∉ (displayBlock bt block).1 := by
  cases block with
  | none =>
      simp only [displayBlock]
      split_ifs <;> simp
  | some b =>
      simp only [displayBlock]
      split_ifs <;> simp

/-- Claim C6 counterexample: the boundary-tag branch of the display switch
prints the block number — for a concrete epoch-boundary block with block
number 42, the delivered line carries `block_no = 42`, so the block number
is present, not absent as the claim states. -/
theorem c6_counterexample :
    (rollForwardHandler none BlockTypeByronEbb
        (.block ⟨.ebb, "Byron", 312, 0, 42, "aa"⟩)).1 =
      [ConsumerEvent.onBlock (.ebb 312 0 42 "aa")]
    ∧ (Displayed.ebb 312 0 42 "aa").blockNoField = 42 := ⟨rfl, rfl⟩

/-- Claim C6 (amended): for every boundary-tagged event carrying an
EBB-shaped block, the handler delivers exactly one Byron (EBB) line with
the block's epoch, slot, block number and hash, and no transaction data
(the display carries no transaction field); the block number is printed
from the block's accessor, not omitted. -/
theorem c6_boundary_descriptor (conn : Option FetchOracle) (era : String)
    (epoch slot blockNo : Nat) (hash : String) :
    rollForwardHandler conn BlockTypeByronEbb
        (.block ⟨.ebb, era, epoch, slot, blockNo, hash⟩) =
      ([ConsumerEvent.onBlock (.ebb epoch slot blockNo hash)],
       HandlerResult.ok) := rfl

/-- Claim C3 counterexample: tag 99 is none of the recognized block-type
tags of the gouroboros ledger, yet classification does not fail with any
UnknownBlockType error — the default display branch delivers the block
normally. -/
theorem c3_counterexample :
    rollForwardHandler none 99
        (.block ⟨.modern, "conway", 0, 500, 77, "hh"⟩) =
      ([ConsumerEvent.onBlock (.generic "conway" 500 77 "hh")],
       HandlerResult.ok) := rfl

/-- Claim C3 (amended): the handlers have no UnknownBlockType failure.
Every tag other than the two Byron tags is handled by the uniform default
branch, which delivers the block when a block value is present and errors
with a nil-block message when it is not; no block is silently dropped — a
normal handler return always includes a delivery, and the block-fetch
handler delivers every non-nil block it receives. -/
theorem c3_no_unknown_block_type :
    (∀ (conn : Option FetchOracle) (bt : Nat) (b : Block),
      bt ≠ BlockTypeByronEbb → bt ≠ BlockTypeByronMain →
      rollForwardHandler conn bt (.block b) =
        ([ConsumerEvent.onBlock (.generic b.eraName b.slot b.blockNo b.hash)],
         HandlerResult.ok))
    ∧ (∀ (conn : Option FetchOracle) (bt : Nat),
      bt ≠ BlockTypeByronEbb → bt ≠ BlockTypeByronMain →
      rollForwardHandler conn bt .otherVal = ([], .err "block is nil"))
    ∧ (∀ (conn : Option FetchOracle) (bt : Nat) (bd : BlockDataArg),
      (rollForwardHandler conn bt bd).2 = HandlerResult.ok →
      ∃ d, ConsumerEvent.onBlock d ∈ (rollForwardHandler conn bt bd).1)
    ∧ (∀ b : Block, ∃ d,
      blockFetchBlockHandler (some b) =
        ([ConsumerEvent.onBlock d], HandlerResult.ok)) := by
  refine ⟨?_, ?_, ?_, ?_⟩
  · intro conn bt b h0 h1
    simp [rollForwardHandler, fetchStage, displayBlock, h0, h1]
  · intro conn bt h0 h1
    simp [rollForwardHandler, fetchStage, displayBlock, h0, h1]
  · intro conn bt bd hok
    unfold rollForwardHandler at hok ⊢
    cases hf : fetchStage conn bd with
    | mk tr res =>
        cases res with
        | error e => simp [hf] at hok
        | ok block =>
            simp only [hf] at hok ⊢
            obtain ⟨d, hd⟩ := displayBlock_ok_delivers bt block hok
            exact ⟨d, by simp [hd]⟩
  · intro b
    by_cases h0 : b.shape = BlockShape.ebb
    · exact ⟨.ebb b.epoch b.slot b.blockNo b.hash,
        by simp [blockFetchBlockHandler, h0]⟩
    · by_cases h1 : b.shape = BlockShape.main
      · exact ⟨.byron b.epoch b.slot b.blockNo b.hash,
          by simp [blockFetchBlockHandler, h0, h1]⟩
      · exact ⟨.generic b.eraName b.slot b.blockNo b.hash,
          by simp [blockFetchBlockHandler, h0, h1]⟩

/-- Claim C3 witness: the amended theorem applied at tag 6 (babbage) with a
concrete modern block, at tag 6 with a nil block value, and at a concrete
boundary block for the block-fetch handler. -/
theorem c3_no_unknown_block_type_witness :
    (6 ≠ BlockTypeByronEbb ∧ 6 ≠ BlockTypeByronMain)
    ∧ rollForwardHandler none 6 (.block ⟨.modern, "babbage", 0, 9, 4, "bb"⟩) =
      ([ConsumerEvent.onBlock (.generic "babbage" 9 4 "bb")], HandlerResult.ok)
    ∧ rollForwardHandler none 6 .otherVal = ([], .err "block is nil") := by
  refine ⟨by decide, ?_, ?_⟩
  · exact c3_no_unknown_block_type.1 none 6 ⟨.modern, "babbage", 0, 9, 4, "bb"⟩
      (by decide) (by decide)
  · exact c3_no_unknown_block_type.2.1 none 6 (by decide) (by decide)

/-- Claim C10: a header-only roll-forward with the shared connection unset
returns an error before attempting any body fetch (the trace is empty),
and a full-block roll-forward never consults the connection capability —
its result is identical for every value of the shared connection. -/
theorem c10_nil_connection_guard :
    (∀ (bt slot : Nat) (hash : List Nat),
      rollForwardHandler none bt (.header slot hash) =
        ([], .err "empty ouroboros connection, aborting"))
    ∧ ∀ (c c' : Option FetchOracle) (bt : Nat) (b : Block),
      rollForwardHandler c bt (.block b) = rollForwardHandler c' bt (.block b) := by
  exact ⟨fun bt s h => rfl, fun c c' bt b => rfl⟩

/-- Claim C1: for every header-only roll-forward event, the handler issues
exactly one block-fetch request, for the point made of the header's slot
and hash, before any delivery to the consumer (the fetch is the first
trace element and no further fetch occurs); and if the fetch errors, no
block delivery happens and the handler returns the fetch error, which is
fatal to the run. -/
theorem c1_header_fetch (o : FetchOracle) (bt slot : Nat) (hash : List Nat) :
    (∃ rest, (rollForwardHandler (some o) bt (.header slot hash)).1 =
        ConsumerEvent.fetchBlock ⟨slot, hash⟩ :: rest ∧
        ∀ q, ConsumerEvent.fetchBlock q ∉ rest) ∧
    ∀ e, o.getBlock ⟨slot, hash⟩ = .error e →
      rollForwardHandler (some o) bt (.header slot hash) =
        ([ConsumerEvent.fetchBlock ⟨slot, hash⟩], HandlerResult.err e) := by
  constructor
  · cases hg : o.getBlock ⟨slot, hash⟩ with
    | error e =>
        exact ⟨[], by simp [rollForwardHandler, fetchStage, hg], by simp⟩
    | ok b =>
        refine ⟨(displayBlock bt (some b)).1, ?_, ?_⟩
        · simp [rollForwardHandler, fetchStage, hg]
        · intro q
          exact displayBlock_no_fetch bt (some b) q
  · intro e hg
    simp [rollForwardHandler, fetchStage, hg]

/-- Claim C1 witness: a concrete oracle whose fetch fails — the handler
issues the single fetch for the header's point and returns the error. -/
theorem c1_header_fetch_witness :
    rollForwardHandler (some ⟨fun _ => .error "boom"⟩) 6 (.header 3 [1, 2]) =
      ([ConsumerEvent.fetchBlock ⟨3, [1, 2]⟩], HandlerResult.err "boom") :=
  (c1_header_fetch ⟨fun _ => .error "boom"⟩ 6 3 [1, 2]).2 "boom" rfl

/-- Claim C9: processing the event stream [rollback(P), forward(B1),
forward(B2)] delivers onRollback(P) strictly before onBlock(B1) and
onBlock(B2), and onBlock(B1) strictly before onBlock(B2): the resulting
consumer trace is exactly that sequence, delivered one at a time by the
sequential dispatch loop. -/
theorem c9_ordering (conn : Option FetchOracle) (P tp : Point) (tn : Nat)
    (bt1 bt2 : Nat) (b1 b2 : Block)
    (h1 : bt1 ≠ BlockTypeByronEbb) (h2 : bt1 ≠ BlockTypeByronMain)
    (h3 : bt2 ≠ BlockTypeByronEbb) (h4 : bt2 ≠ BlockTypeByronMain) :
    processEvents conn
        [.rollBackward P tp tn, .rollForward bt1 (.block b1),
         .rollForward bt2 (.block b2)] =
      ([ConsumerEvent.onRollback P tp tn,
        ConsumerEvent.onBlock (.generic b1.eraName b1.slot b1.blockNo b1.hash),
        ConsumerEvent.onBlock (.generic b2.eraName b2.slot b2.blockNo b2.hash)],
       HandlerResult.ok) := by
  simp [processEvents, processEvent, rollBackwardHandler, rollForwardHandler,
    fetchStage, displayBlock, h1, h2, h3, h4]

/-- Claim C9 witness: the ordering theorem at a concrete rollback point and
two concrete babbage-tagged blocks. -/
theorem c9_ordering_witness :
    processEvents none
        [.rollBackward ⟨5, [1]⟩ ⟨9, [2]⟩ 7,
         .rollForward 6 (.block ⟨.modern, "babbage", 0, 10, 3, "ha"⟩),
         .rollForward 6 (.block ⟨.modern, "babbage", 0, 11, 4, "hb"⟩)] =
      ([ConsumerEvent.onRollback ⟨5, [1]⟩ ⟨9, [2]⟩ 7,
        ConsumerEvent.onBlock (.generic "babbage" 10 3 "ha"),
        ConsumerEvent.onBlock (.generic "babbage" 11 4 "hb")],
       HandlerResult.ok) :=
  c9_ordering none ⟨5, [1]⟩ ⟨9, [2]⟩ 7 6 6
    ⟨.modern, "babbage", 0, 10, 3, "ha"⟩ ⟨.modern, "babbage", 0, 11, 4, "hb"⟩
    (by decide) (by decide) (by decide) (by decide)

/-- Claim C7: for every network identifier not registered in the era
table, lookup with era genesis succeeds and resolves to the origin point,
while any other era fails with the unsupported-network exit; for a
registered network, an unregistered era fails with the unknown-era exit. -/
theorem c7_era_lookup :
    (∀ net, assocLookup eraIntersect net = none →
      (resolveIntersect net "genesis" = .ok .empty ∧
        pointFromEntry .empty = Point.origin) ∧
      ∀ era, era ≠ "genesis" →
        resolveIntersect net era = .error .unsupportedNetworkForEra) ∧
    ∀ net eras era, assocLookup eraIntersect net = some eras →
      assocLookup eras era = none →
      resolveIntersect net era = .error .unknownEra := by
  constructor
  · intro net hnet
    refine ⟨⟨?_, rfl⟩, ?_⟩
    · unfold resolveIntersect
      rw [hnet]
      rfl
    · intro era hera
      simp [resolveIntersect, hnet, hera]
  · intro net eras era hnet heras
    simp [resolveIntersect, hnet, heras]

/-- Claim C7 witness: the lookup theorem at the unregistered network
devnet with eras genesis and shelley, and at the registered network
preprod with the unregistered era vasil. -/
theorem c7_era_lookup_witness :
    resolveIntersect "devnet" "genesis" = .ok .empty ∧
    resolveIntersect "devnet" "shelley" = .error .unsupportedNetworkForEra ∧
    resolveIntersect "preprod" "vasil" = .error .unknownEra :=
  ⟨(c7_era_lookup.1 "devnet" rfl).1.1,
   (c7_era_lookup.1 "devnet" rfl).2 "shelley" (by decide),
   c7_era_lookup.2 "preprod" [("genesis", .empty), ("alonzo", .empty)]
     "vasil" rfl rfl⟩

/-- Claim C8 counterexample: alonzo on preprod is a registered era entry
that is neither genesis nor byron, yet its anchor carries no slot and no
32-byte hash — the entry is empty and resolves to the chain origin. -/
theorem c8_counterexample :
    resolveIntersect "preprod" "alonzo" = .ok IntersectEntry.empty ∧
    pointFromEntry IntersectEntry.empty = Point.origin ∧
    ("alonzo" ≠ "genesis" ∧ "alonzo" ≠ "byron") :=
  ⟨rfl, rfl, by decide⟩

/-- Claim C8 (amended): resolving preview/babbage yields the anchor with
slot 345594 and hash e47ac07272e95d6c3dc8279def7b88ded00e310f99ac3dfbae48ed9ff55e6001,
which decodes to 32 bytes; every entry of the table that carries an anchor
carries a slot and a hash decoding to 32 bytes; but the alonzo entries of
preprod and preview, though neither genesis nor byron, carry no anchor and
resolve to the origin. -/
theorem c8_preview_babbage_anchor :
    resolveIntersect "preview" "babbage" =
      .ok (.anchor 345594
        "e47ac07272e95d6c3dc8279def7b88ded00e310f99ac3dfbae48ed9ff55e6001") ∧
    pointFromEntry
        (.anchor 345594
          "e47ac07272e95d6c3dc8279def7b88ded00e310f99ac3dfbae48ed9ff55e6001") =
      ⟨345594,
       hexDecode
         "e47ac07272e95d6c3dc8279def7b88ded00e310f99ac3dfbae48ed9ff55e6001"⟩ ∧
    (hexDecode
      "e47ac07272e95d6c3dc8279def7b88ded00e310f99ac3dfbae48ed9ff55e6001").length
      = 32 ∧
    (eraIntersect.all fun p => p.2.all fun q => entryHashOk q.2) = true ∧
    resolveIntersect "preprod" "alonzo" = .ok .empty ∧
    resolveIntersect "preview" "alonzo" = .ok .empty :=
  ⟨rfl, rfl, rfl, rfl, rfl, rfl⟩

/-- Claim C2 counterexample: Bulk mode requested over the local socket is
not rejected — the run dials the unix socket and starts the standard
streaming sync — and the range-only query together with Bulk dials and
performs the one-shot range query; neither path fails, and Dial is called
in both. -/
theorem c2_counterexample :
    runMain cfgBulkLocal wAllOk =
      ([Action.dial "unix" "/ipc/node.socket", Action.syncStart Point.origin],
       Outcome.waiting) ∧
    Action.dial "unix" "/ipc/node.socket" ∈ (runMain cfgBulkLocal wAllOk).1 ∧
    runMain cfgRangeBulk wAllOk =
      ([Action.dial "tcp" "relay:3001",
        Action.getAvailableBlockRange Point.origin],
       Outcome.rangeShown ⟨10, [2]⟩ ⟨99, [3]⟩) :=
  ⟨rfl, by decide, rfl⟩

/-- Claim C2 (amended): the conflicting configurations are silently
accepted, not rejected, and Dial always happens first: Bulk over a local
socket dials and proceeds in standard streaming mode (bulk ignored), and
the range-only query dials and performs only the one-shot range query even
with Bulk set (no chain-sync stop, no range fetch); `main` has no
ConfigurationConflict exit. -/
theorem c2_bulk_config_not_rejected (cfg : GoConfig) (w : World)
    (entry : IntersectEntry)
    (hmagic : cfg.magic ≠ 0)
    (hera : resolveIntersect cfg.network cfg.startEra = .ok entry)
    (hconn : w.newConnOk = true) (hdial : w.dialOk = true)
    (htip : cfg.tip = false) (hsync : w.syncOk = true) :
    (cfg.address = "" → cfg.bulk = true → cfg.blockRange = false →
      runMain cfg w =
        ([Action.dial "unix" cfg.socketPath,
          Action.syncStart (pointFromEntry entry)],
         Outcome.waiting)) ∧
    (cfg.blockRange = true → cfg.bulk = true →
      (runMain cfg w).1 =
        [Action.dial (if cfg.address ≠ "" then "tcp" else "unix")
          (if cfg.address ≠ "" then cfg.address else cfg.socketPath),
         Action.getAvailableBlockRange (pointFromEntry entry)] ∧
      Action.syncStop ∉ (runMain cfg w).1 ∧
      ∀ s e, Action.fetchRange s e ∉ (runMain cfg w).1) := by
  constructor
  · intro haddr hbulk hbr
    simp [runMain, runModes, hmagic, hera, hconn, hdial, htip, haddr, hbulk,
      hbr, hsync]
  · intro hbr hbulk
    cases har : w.availableRange with
    | error msg =>
        refine ⟨?_, ?_, fun s e => ?_⟩ <;>
          simp [runMain, runModes, hmagic, hera, hconn, hdial, htip, hbr, har]
    | ok pr =>
        obtain ⟨s0, e0⟩ := pr
        refine ⟨?_, ?_, fun s e => ?_⟩ <;>
          simp [runMain, runModes, hmagic, hera, hconn, hdial, htip, hbr, har]

/-- Claim C2 witness: the amended theorem at the concrete bulk-over-local
configuration (streams normally) and at the concrete range-plus-bulk
configuration (no stop action in its trace). -/
theorem c2_bulk_config_not_rejected_witness :
    runMain cfgBulkLocal wAllOk =
      ([Action.dial "unix" "/ipc/node.socket", Action.syncStart Point.origin],
       Outcome.waiting) ∧
    Action.syncStop ∉ (runMain cfgRangeBulk wAllOk).1 := by
  constructor
  · exact (c2_bulk_config_not_rejected cfgBulkLocal wAllOk .empty
      (by decide) rfl rfl rfl rfl rfl).1 rfl rfl rfl
  · exact ((c2_bulk_config_not_rejected cfgRangeBulk wAllOk .empty
      (by decide) rfl rfl rfl rfl rfl).2 rfl rfl).2.1

/-- Claim C4: in bulk mode (node-to-node, not range-only) the handoff is
strictly ordered — the available-range query is issued, then chain-sync is
stopped, and only after a successful stop is the range fetch issued; a
failure of the range query, the stop, or the fetch terminates the run with
its respective error, and no fetch is ever issued after a failed stop. -/
theorem c4_bulk_handoff (cfg : GoConfig) (w : World) (entry : IntersectEntry)
    (haddr : cfg.address ≠ "") (hbulk : cfg.bulk = true)
    (hbr : cfg.blockRange = false) (htip : cfg.tip = false)
    (hmagic : cfg.magic ≠ 0)
    (hera : resolveIntersect cfg.network cfg.startEra = .ok entry)
    (hconn : w.newConnOk = true) (hdial : w.dialOk = true) :
    (∀ msg, w.availableRange = .error msg →
      runMain cfg w =
        ([Action.dial "tcp" cfg.address,
          Action.getAvailableBlockRange (pointFromEntry entry)],
         Outcome.exited ExitKind.rangeQueryFailed) ∧
      Action.syncStop ∉ (runMain cfg w).1 ∧
      ∀ s e, Action.fetchRange s e ∉ (runMain cfg w).1) ∧
    (∀ s e, w.availableRange = .ok (s, e) → w.stopOk = false →
      runMain cfg w =
        ([Action.dial "tcp" cfg.address,
          Action.getAvailableBlockRange (pointFromEntry entry),
          Action.syncStop],
         Outcome.exited ExitKind.syncStopFailed) ∧
      ∀ s2 e2, Action.fetchRange s2 e2 ∉ (runMain cfg w).1) ∧
    (∀ s e, w.availableRange = .ok (s, e) → w.stopOk = true →
      w.fetchRangeOk = true →
      runMain cfg w =
        ([Action.dial "tcp" cfg.address,
          Action.getAvailableBlockRange (pointFromEntry entry),
          Action.syncStop, Action.fetchRange s e],
         Outcome.waiting)) ∧
    ∀ s e, w.availableRange = .ok (s, e) → w.stopOk = true →
      w.fetchRangeOk = false →
      runMain cfg w =
        ([Action.dial "tcp" cfg.address,
          Action.getAvailableBlockRange (pointFromEntry entry),
          Action.syncStop, Action.fetchRange s e],
         Outcome.exited ExitKind.rangeFetchFailed) := by
  refine ⟨?_, ?_, ?_, ?_⟩
  · intro msg har
    refine ⟨?_, ?_, fun s e => ?_⟩ <;>
      simp [runMain, runModes, hmagic, hera, hconn, hdial, htip, hbr, hbulk,
        haddr, har]
  · intro s e har hstop
    refine ⟨?_, fun s2 e2 => ?_⟩ <;>
      simp [runMain, runModes, hmagic, hera, hconn, hdial, htip, hbr, hbulk,
        haddr, har, hstop]
  · intro s e har hstop hf
    simp [runMain, runModes, hmagic, hera, hconn, hdial, htip, hbr, hbulk,
      haddr, har, hstop, hf]
  · intro s e har hstop hf
    simp [runMain, runModes, hmagic, hera, hconn, hdial, htip, hbr, hbulk,
      haddr, har, hstop, hf]

/-- Claim C4 witness: bulk over TCP with an all-ok oracle performs range
query, stop, fetch in that order and then waits; with a failing stop it
exits with the stop error and the trace contains no fetch; with a failing
range fetch it exits with the range-fetch error. -/
theorem c4_bulk_handoff_witness :
    runMain cfgBulkNtN wAllOk =
      ([Action.dial "tcp" "relay:3001",
        Action.getAvailableBlockRange Point.origin, Action.syncStop,
        Action.fetchRange ⟨10, [2]⟩ ⟨99, [3]⟩], Outcome.waiting) ∧
    runMain cfgBulkNtN wStopFail =
      ([Action.dial "tcp" "relay:3001",
        Action.getAvailableBlockRange Point.origin, Action.syncStop],
       Outcome.exited ExitKind.syncStopFailed) ∧
    runMain cfgBulkNtN wFetchFail =
      ([Action.dial "tcp" "relay:3001",
        Action.getAvailableBlockRange Point.origin, Action.syncStop,
        Action.fetchRange ⟨10, [2]⟩ ⟨99, [3]⟩],
       Outcome.exited ExitKind.rangeFetchFailed) := by
  refine ⟨?_, ?_, ?_⟩
  · exact (c4_bulk_handoff cfgBulkNtN wAllOk .empty (by decide) rfl rfl rfl
      (by decide) rfl rfl rfl).2.2.1 ⟨10, [2]⟩ ⟨99, [3]⟩ rfl rfl rfl
  · exact ((c4_bulk_handoff cfgBulkNtN wStopFail .empty (by decide) rfl rfl rfl
      (by decide) rfl rfl rfl).2.1 ⟨10, [2]⟩ ⟨99, [3]⟩ rfl rfl).1
  · exact (c4_bulk_handoff cfgBulkNtN wFetchFail .empty (by decide) rfl rfl rfl
      (by decide) rfl rfl rfl).2.2.2 ⟨10, [2]⟩ ⟨99, [3]⟩ rfl rfl rfl

/-- Claim C5 counterexample: with the tip flag set but the era name vasil,
absent from the anchor table, the run exits with the unknown-era error and
the tip provider is never called — resolution does not succeed regardless
of the configured era name. -/
theorem c5_counterexample :
    runMain cfgTipBadEra wAllOk = ([], Outcome.exited ExitKind.unknownEra) ∧
    Action.getCurrentTip ∉ (runMain cfgTipBadEra wAllOk).1 :=
  ⟨rfl, by decide⟩

/-- Claim C5 (amended): with the tip flag set, once era validation has
succeeded the run queries the current tip right after dialling and
continues with the tip's point, ignoring the era's anchor entirely — any
two table-registered start eras produce identical runs; but era validation
precedes the tip query, so an era name absent from the table aborts the
run before the tip provider is called. -/
theorem c5_tip_resolution (cfg : GoConfig) (w : World)
    (entry : IntersectEntry) (tp : Point)
    (htip : cfg.tip = true) (hmagic : cfg.magic ≠ 0)
    (hera : resolveIntersect cfg.network cfg.startEra = .ok entry)
    (hconn : w.newConnOk = true) (hdial : w.dialOk = true)
    (hcur : w.currentTip = .ok tp) :
    runMain cfg w =
      runModes (cfg.address ≠ "") cfg.bulk cfg.blockRange tp w
        [Action.dial (if cfg.address ≠ "" then "tcp" else "unix")
          (if cfg.address ≠ "" then cfg.address else cfg.socketPath),
         Action.getCurrentTip] ∧
    ∀ era2 entry2, resolveIntersect cfg.network era2 = .ok entry2 →
      runMain ⟨cfg.socketPath, cfg.address, cfg.network, cfg.magic, era2,
        cfg.tip, cfg.bulk, cfg.blockRange⟩ w = runMain cfg w := by
  constructor
  · simp [runMain, hmagic, hera, hconn, hdial, htip, hcur]
  · intro era2 entry2 hera2
    simp [runMain, hmagic, hera, hera2, hconn, hdial, htip, hcur]

/-- Claim C5 witness: tip flag with the registered era babbage — the run
dials, queries the tip, and starts the standard sync from the tip's point
(slot 100), not from the babbage anchor. -/
theorem c5_tip_resolution_witness :
    runMain cfgTipValidEra wAllOk =
      ([Action.dial "unix" "/ipc/node.socket", Action.getCurrentTip,
        Action.syncStart ⟨100, [1]⟩], Outcome.waiting) := by
  rw [(c5_tip_resolution cfgTipValidEra wAllOk
      (.anchor 345594
        "e47ac07272e95d6c3dc8279def7b88ded00e310f99ac3dfbae48ed9ff55e6001")
      ⟨100, [1]⟩ rfl (by decide) rfl rfl rfl rfl).1]
  rfl

end ChainSync
